import Mathlib

/-!
Verification development for the qr-scanner-library core.

Shallow embedding of:
- QrDecoder.decodeFromImageData (compiled qrDecoder source)
- CameraManager.startStream / stopStream (cameraManager source): the
  readiness-wait promise is modelled as an explicit event-driven state
  machine (AcqState / acqStep) over the five registered signal sources
  (timeout timer, readyState polling interval, onloadedmetadata handler,
  oncanplay handler, onerror handler) plus asynchronous resolutions of
  in-flight video.play() calls.
- ScannerService (scannerService.ts): constructor validation, start(),
  stop(), and the self-rescheduling scanLoop, with the decode collaborator
  and the DOM video element treated as oracles/explicit state.

Browser side effects that the claims do not observe (console logging other
than the scan-loop catch, the actual pixels, DOM attachment details) are
either omitted or recorded as explicit effect/event markers.
-/

deriving instance DecidableEq for Except

/-- Classified camera errors. One constructor per distinct throw site in
CameraManager.startStream: the outer catch maps platform error names
(NotAllowedError, NotFoundError / DevicesNotFoundError, NotReadableError /
TrackStartError, OverconstrainedError / ConstraintNotSatisfiedError,
AbortError) to dedicated messages, and the inner readiness promise rejects
with the timeout message, the play-failure message, or the video-element
error message. The generic case carries the original name and message. -/
inductive CamErr where
  | permissionDenied
  | deviceNotFound
  | deviceBusy
  | constraintUnsatisfiable
  | aborted
  | timeout
  | playFailed
  | surfaceError
  | generic (name msg : String)
deriving Repr, DecidableEq

/-- Rejection reasons of the inner readiness promise in startStream:
reject(Error(Timeout waiting for video readiness or playback)),
reject(Error(Failed to play video stream: ...)), and
reject(Error(Video element reported an error.)). -/
inductive AcqFail where
  | timeout
  | playFailed
  | surfaceError
deriving Repr, DecidableEq

/-- Outcome of the external jsQR call inside decodeFromImageData:
a code object with a data string, no code found, or a thrown exception
(caught inside decodeFromImageData). -/
inductive JsQROutcome where
  | found (data : String)
  | notFound
  | throwsErr
deriving Repr, DecidableEq

/-- QrDecoder.decodeFromImageData. `validImage` models the truthiness check
on imageData, imageData.data, imageData.width, imageData.height. A found
code is returned only when its data has positive length after trim;
jsQR exceptions are caught and yield null. -/
def decodeFromImageData (validImage : Bool) (jsqr : JsQROutcome) : Option String :=
  if !validImage then none
  else
    match jsqr with
    | .found d => if 0 < d.trim.length then some d else none
    | .notFound => none
    | .throwsErr => none

/-- Atomic events of the single-threaded event loop while the inner
readiness promise of startStream is pending: the three handler events,
one polling-interval tick (carrying the readyState the poll observes),
the 2000 ms timeout firing, and the asynchronous resolution of one
in-flight video.play() call (ok = play succeeded). -/
inductive AcqEvent where
  | loadedmetadata
  | canplay
  | pollTick (readyState : Nat)
  | videoError
  | timeoutFire
  | playResolve (ok : Bool)
deriving Repr, DecidableEq

/-- State of the inner readiness promise of startStream.
`resolved` is the local boolean flag of the same name; `settled` is the
promise settlement (none while pending; JS promises settle at most once,
so later resolve/reject calls leave it unchanged). The five Bool flags
track which timers/handlers are still registered (cleanup() clears all
five). `pendingPlays` counts in-flight video.play() calls whose await has
not yet resumed; `plays` counts all play() calls made by attemptPlay. -/
structure AcqState where
  resolved : Bool
  settled : Option (Except AcqFail Unit)
  timerActive : Bool
  intervalActive : Bool
  lmHandler : Bool
  cpHandler : Bool
  errHandler : Bool
  pendingPlays : Nat
  plays : Nat
deriving Repr, DecidableEq

/-- Initial state of the readiness wait: timeout armed, interval armed,
all three handlers assigned, nothing resolved. -/
def initAcq : AcqState :=
  { resolved := false, settled := none, timerActive := true, intervalActive := true,
    lmHandler := true, cpHandler := true, errHandler := true, pendingPlays := 0, plays := 0 }

/-- Settling the promise: a JS promise ignores resolve/reject once it is
already settled. -/
def settleAcq (v : Except AcqFail Unit) (st : AcqState) : AcqState :=
  if st.settled.isSome then st else { st with settled := some v }

/-- The cleanup() closure: clearTimeout, clearInterval, and null out
onloadedmetadata, onerror, oncanplay. -/
def cleanupAcq (st : AcqState) : AcqState :=
  { st with timerActive := false, intervalActive := false,
            lmHandler := false, cpHandler := false, errHandler := false }

/-- The synchronous prefix of attemptPlay: if (resolved) return, else call
video.play(), which adds one in-flight await. -/
def attemptPlayStart (st : AcqState) : AcqState :=
  if st.resolved then st
  else { st with pendingPlays := st.pendingPlays + 1, plays := st.plays + 1 }

/-- One atomic step of the event loop while the readiness promise is
pending, translated branch-for-branch from the promise executor in
startStream. Handlers fire only while registered; a cleared timer or
interval does not fire. On play success the code sets resolved, cleans up,
and resolves without re-checking resolved (the promise itself ignores a
second settlement); on play failure it rejects only if not yet resolved. -/
def acqStep (st : AcqState) : AcqEvent → AcqState
  | .loadedmetadata => if st.lmHandler then attemptPlayStart st else st
  | .canplay => if st.cpHandler then attemptPlayStart st else st
  | .pollTick rs =>
      if st.intervalActive then
        if st.resolved then st
        else if 3 ≤ rs then attemptPlayStart st else st
      else st
  | .videoError =>
      if st.errHandler then
        if st.resolved then st
        else settleAcq (.error .surfaceError) (cleanupAcq { st with resolved := true })
      else st
  | .timeoutFire =>
      if st.timerActive then
        if st.resolved then st
        else settleAcq (.error .timeout) (cleanupAcq { st with resolved := true })
      else st
  | .playResolve ok =>
      if st.pendingPlays = 0 then st
      else
        let st1 := { st with pendingPlays := st.pendingPlays - 1 }
        if ok then settleAcq (.ok ()) (cleanupAcq { st1 with resolved := true })
        else if st1.resolved then st1
        else settleAcq (.error .playFailed) (cleanupAcq { st1 with resolved := true })

/-- Run the readiness wait over a sequence of atomic events. -/
def processEvents (st : AcqState) (es : List AcqEvent) : AcqState :=
  es.foldl acqStep st

/-- All five listeners/timers of the readiness wait are deregistered. -/
def acqCleaned (st : AcqState) : Prop :=
  st.timerActive = false ∧ st.intervalActive = false ∧
  st.lmHandler = false ∧ st.cpHandler = false ∧ st.errHandler = false

/-- Well-formedness of a readiness-wait state: the resolved flag agrees
with the promise settlement, and cleanup has happened exactly when the
promise settled. -/
def acqWF (st : AcqState) : Prop :=
  (st.resolved = st.settled.isSome) ∧
  (st.resolved = true → acqCleaned st) ∧
  (st.resolved = false →
    st.timerActive = true ∧ st.intervalActive = true ∧
    st.lmHandler = true ∧ st.cpHandler = true ∧ st.errHandler = true)

/-- The outer catch of startStream: maps the getUserMedia error name to a
classified error. -/
def classifyGumError (name msg : String) : CamErr :=
  if name = "NotAllowedError" then .permissionDenied
  else if name = "NotFoundError" || name = "DevicesNotFoundError" then .deviceNotFound
  else if name = "NotReadableError" || name = "TrackStartError" then .deviceBusy
  else if name = "OverconstrainedError" || name = "ConstraintNotSatisfiedError" then
    .constraintUnsatisfiable
  else if name = "AbortError" then .aborted
  else .generic name msg

/-- Classification of an inner readiness-promise rejection as it surfaces
from startStream (the outer catch re-wraps its message; the classification
of the cause is preserved). -/
def liftAcqFail : AcqFail → CamErr
  | .timeout => .timeout
  | .playFailed => .playFailed
  | .surfaceError => .surfaceError

/-- Map the inner readiness settlement to the startStream result: success
returns the acquired stream handle. -/
def acqResToCam (h : Nat) : Except AcqFail Unit → Except CamErr Nat
  | .ok _ => .ok h
  | .error e => .error (liftAcqFail e)

/-- Observable outcome of one CameraManager.startStream call.
`res` is the settlement of the promise startStream returns (none = still
pending); `streamStored` is whether this.stream was assigned;
`attached` is whether the stream was attached to a video element;
`playAttempts` counts video.play() calls (the immediate attempt plus those
of the readiness wait); the last two record whether the readiness wait
registered its handlers and armed its timers at all. -/
structure SSResult where
  res : Option (Except CamErr Nat)
  streamStored : Bool
  attached : Bool
  playAttempts : Nat
  listenersRegistered : Bool
  timersStarted : Bool
deriving Repr, DecidableEq

/-- CameraManager.startStream. `videoBound` is whether this.videoElement
is non-null; `gum` is the getUserMedia outcome (a fresh stream handle, or
a platform error name/message); `evs` are the atomic events observed while
the readiness promise is pending (unused when no video element is bound:
that branch never constructs the wait). Stream-handle release/acquisition
bookkeeping is modelled separately by cmStartStreamHandles. -/
def cmStartStream (videoBound : Bool) (gum : Except (String × String) Nat)
    (evs : List AcqEvent) : SSResult :=
  match gum with
  | .error e =>
      { res := some (.error (classifyGumError e.1 e.2)), streamStored := false,
        attached := false, playAttempts := 0,
        listenersRegistered := false, timersStarted := false }
  | .ok h =>
      if videoBound then
        let w := processEvents initAcq evs
        { res := w.settled.map (acqResToCam h), streamStored := true, attached := true,
          playAttempts := 1 + w.plays, listenersRegistered := true, timersStarted := true }
      else
        { res := some (.ok h), streamStored := true, attached := false,
          playAttempts := 0, listenersRegistered := false, timersStarted := false }

/-- Stream-handle view of a CameraManager: the held stream (this.stream),
the handles whose tracks are still live, and a counter for fresh handles
returned by getUserMedia. -/
structure CMState where
  held : Option Nat
  liveTracks : List Nat
  nextId : Nat
deriving Repr, DecidableEq

/-- CameraManager.stopStream: if a stream is held, stop all of its tracks
and clear this.stream; otherwise do nothing. -/
def cmStopStreamHandles (st : CMState) : CMState :=
  match st.held with
  | none => st
  | some h => { st with held := none, liveTracks := st.liveTracks.erase h }

/-- Stream-handle effect of CameraManager.startStream: it first calls
stopStream (releasing any previously held stream), then, if getUserMedia
succeeds, stores a fresh live stream handle. On getUserMedia failure no
new handle exists and none is held. -/
def cmStartStreamHandles (gumOk : Bool) (st : CMState) : CMState :=
  let st1 := cmStopStreamHandles st
  if gumOk then
    { st1 with held := some st1.nextId, liveTracks := st1.liveTracks ++ [st1.nextId],
               nextId := st1.nextId + 1 }
  else st1

/-- One external lifecycle call on a ScannerService session, as it affects
stream handles: start (with the getUserMedia outcome and whether the
readiness wait succeeded) or stop. -/
inductive SvcOp where
  | start (gumOk waitOk : Bool)
  | stop
deriving Repr, DecidableEq

/-- Session state for the stream-handle invariant: the isScanning flag
plus the CameraManager stream-handle state. -/
structure SessionState where
  scanning : Bool
  cm : CMState
deriving Repr, DecidableEq

/-- Freshly constructed session: not scanning, no stream. -/
def initSession : SessionState :=
  { scanning := false, cm := { held := none, liveTracks := [], nextId := 0 } }

/-- Stream-handle effect of one ScannerService lifecycle call.
start() returns early when already scanning; otherwise it runs
startStream (which releases then possibly acquires) and ends up scanning
only if both getUserMedia and the readiness wait succeeded (on failure the
catch sets isScanning back to false but does not release the stream).
stop() returns early when not scanning; otherwise it clears the flag and
calls stopStream. -/
def svcStep (st : SessionState) : SvcOp → SessionState
  | .start gumOk waitOk =>
      if st.scanning then st
      else
        { scanning := gumOk && waitOk, cm := cmStartStreamHandles gumOk st.cm }
  | .stop =>
      if st.scanning then { scanning := false, cm := cmStopStreamHandles st.cm } else st

/-- Run a sequence of lifecycle calls from a fresh session. -/
def svcRun (ops : List SvcOp) : SessionState :=
  ops.foldl svcStep initSession

/-- Observable state of the bound video element, as read by the scan loop
and the metadata listener. -/
structure VideoState where
  bound : Bool
  paused : Bool
  ended : Bool
  videoWidth : Nat
  videoHeight : Nat
deriving Repr, DecidableEq

/-- State of a ScannerService instance: the isScanning flag, the
metadataLoaded closure variable of the current start() invocation, the
two stored listener references (non-null flags), the internal canvas
dimensions, the pending requestAnimationFrame id, and the two options
with defaults that the claims observe. -/
structure ScannerState where
  isScanning : Bool
  metadataLoaded : Bool
  lmListener : Bool
  errListener : Bool
  canvasW : Nat
  canvasH : Nat
  animationFrameId : Option Nat
  stopOnScan : Bool
  scanInterval : Nat
deriving Repr, DecidableEq

/-- Scanner state right after construction with default options
(scanInterval 200, stopOnScan true). -/
def initScanner : ScannerState :=
  { isScanning := false, metadataLoaded := false, lmListener := false, errListener := false,
    canvasW := 0, canvasH := 0, animationFrameId := none, stopOnScan := true,
    scanInterval := 200 }

/-- Externally observable callback/log events of the scanner. `logged`
records only the catch-block log of the scan loop; informational logs are
omitted. -/
inductive SEvent where
  | scanSuccess (s : String)
  | errorCb (e : CamErr)
  | logged
deriving Repr, DecidableEq

/-- Whether an event is an onScanSuccess invocation. -/
def isSuccessEv : SEvent → Bool
  | .scanSuccess _ => true
  | _ => false

/-- Whether an event is an onError invocation. -/
def isErrorEv : SEvent → Bool
  | .errorCb _ => true
  | _ => false

/-- ScannerService.stop(): early return when not scanning; otherwise clear
the flag, cancel the pending animation frame, remove and null both stored
listeners, and release the stream (the stream release is tracked by the
CMState model, not here). -/
def stopScanner (st : ScannerState) : ScannerState :=
  if !st.isScanning then st
  else { st with isScanning := false, animationFrameId := none,
                 lmListener := false, errListener := false }

/-- What happened inside the try block of one scan-loop tick:
drawImage/getImageData threw, or decodeFromImageData returned r. -/
inductive TickOutcome where
  | captureThrows
  | decoded (r : Option String)
deriving Repr, DecidableEq

/-- A tick outcome that does not pass the JS truthiness test
if (decodedData): an exception, null, or the empty string. -/
def tickFalsy : TickOutcome → Bool
  | .captureThrows => true
  | .decoded none => true
  | .decoded (some d) => d == ""

/-- Result of one scan-loop tick: the scanner state afterwards, the
callback/log events emitted during the tick, and the delay of the
setTimeout armed at the end of the tick (none when the tick returned
without scheduling). -/
structure TickResult where
  st : ScannerState
  evs : List SEvent
  sched : Option Nat
deriving Repr, DecidableEq

/-- The canvas resize at the top of the try block: match the canvas to the
video dimensions when they differ. -/
def resizeCanvas (video : VideoState) (st : ScannerState) : ScannerState :=
  if st.canvasW != video.videoWidth || st.canvasH != video.videoHeight then
    { st with canvasW := video.videoWidth, canvasH := video.videoHeight }
  else st

/-- One tick of ScannerService.scanLoop, translated branch-for-branch:
guard (not scanning, or video unbound/paused/ended: stop unless already
stopped, and do not schedule); then the try block (resize, capture,
decode) whose exceptions are caught and logged; on a truthy decode invoke
onScanSuccess and, when stopOnScan, stop and return without scheduling;
otherwise arm setTimeout(scanInterval) which will request the next
animation frame. -/
def scanLoop (video : VideoState) (o : TickOutcome) (st : ScannerState) : TickResult :=
  if !st.isScanning || !video.bound || video.paused || video.ended then
    if st.isScanning then { st := stopScanner st, evs := [], sched := none }
    else { st := st, evs := [], sched := none }
  else
    let st1 := resizeCanvas video st
    match o with
    | .captureThrows => { st := st1, evs := [.logged], sched := some st1.scanInterval }
    | .decoded none => { st := st1, evs := [], sched := some st1.scanInterval }
    | .decoded (some d) =>
        if d != "" then
          if st1.stopOnScan then
            { st := stopScanner st1, evs := [.scanSuccess d], sched := none }
          else
            { st := st1, evs := [.scanSuccess d], sched := some st1.scanInterval }
        else { st := st1, evs := [], sched := some st1.scanInterval }

/-- Fuel-bounded run of the self-rescheduling scan loop. `outs i` is the
try-block outcome of the i-th executed tick. After a tick, the next tick
runs only if the tick armed its setTimeout and the timer callback still
sees isScanning (in which case it stores a requestAnimationFrame id).
Returns the final scanner state and all emitted events in order. -/
def runLoop (video : VideoState) : Nat → (Nat → TickOutcome) → ScannerState →
    ScannerState × List SEvent
  | 0, _, st => (st, [])
  | fuel + 1, outs, st =>
      let t := scanLoop video (outs 0) st
      match t.sched with
      | none => (t.st, t.evs)
      | some _ =>
          if t.st.isScanning then
            let r := runLoop video fuel (fun i => outs (i + 1))
                       { t.st with animationFrameId := some 0 }
            (r.1, t.evs ++ r.2)
          else (t.st, t.evs)

/-- Body of the stored onMetadataLoadedListener in start(): early return
when metadataLoaded is already set or the session is not scanning;
otherwise mark metadata loaded and, if both video dimensions are positive,
size the canvas and start the scan loop (second component: whether
scanLoop() was invoked). -/
def runLmListener (vw vh : Nat) (st : ScannerState) : ScannerState × Bool :=
  if st.metadataLoaded || !st.isScanning then (st, false)
  else
    let st1 := { st with metadataLoaded := true }
    if 0 < vw ∧ 0 < vh then ({ st1 with canvasW := vw, canvasH := vh }, true)
    else (st1, false)

/-- Delivery of a loadedmetadata DOM event: the listener runs only while
registered, and it was added with once: true, so it is removed when it
fires. -/
def dispatchLm (vw vh : Nat) (st : ScannerState) : ScannerState × Bool :=
  if st.lmListener then runLmListener vw vh { st with lmListener := false }
  else (st, false)

/-- Environment of one ScannerService.start() call: the classified
acquisition outcome, whether a loadedmetadata event was delivered while
start() was awaiting startStream, whether an external stop() call arrived
while awaiting, the readyState the fallback check observes after the
await, and the video dimensions the listener observes. -/
structure StartCtx where
  acq : Except CamErr Unit
  lmDuringAwait : Bool
  stopDuringAwait : Bool
  readyStateAtResolve : Nat
  vw : Nat
  vh : Nat
deriving Repr, DecidableEq

/-- Result of one ScannerService.start() call: the scanner state when the
start() promise settles, the callback events emitted, the settlement of
the start() promise, and whether scanLoop() was invoked (the ticks of an
invoked loop are modelled by runLoop). -/
structure StartResult where
  st : ScannerState
  evs : List SEvent
  res : Except CamErr Unit
  loopStarted : Bool
deriving Repr, DecidableEq

/-- Everything that may interleave while start() is awaiting startStream:
delivery of a loadedmetadata event to the attached once-listener, and an
external stop() call, in that order when both occur. -/
def startAwaitPhase (ctx : StartCtx) (st1 : ScannerState) : ScannerState :=
  let st2 := if ctx.lmDuringAwait then (dispatchLm ctx.vw ctx.vh st1).1 else st1
  if ctx.stopDuringAwait then stopScanner st2 else st2

/-- ScannerService.start(), translated in order: early return when already
scanning; reset the metadataLoaded closure variable and attach both
listeners; await startStream, during which a loadedmetadata event and/or
an external stop() call may be processed; on acquisition failure set
isScanning to false, invoke onError, and reject with the same error; on
success set isScanning to true and run the fallback readyState check,
which invokes the stored listener when the loadedmetadata event has not
marked metadata as loaded and readyState is at least HAVE_METADATA. -/
def serviceStart (ctx : StartCtx) (st0 : ScannerState) : StartResult :=
  if st0.isScanning then { st := st0, evs := [], res := .ok (), loopStarted := false }
  else
    let st1 := { st0 with metadataLoaded := false, lmListener := true, errListener := true }
    let st3 := startAwaitPhase ctx st1
    match ctx.acq with
    | .error e =>
        { st := { st3 with isScanning := false }, evs := [.errorCb e],
          res := .error e, loopStarted := false }
    | .ok _ =>
        let st4 := { st3 with isScanning := true }
        if st4.metadataLoaded then
          { st := st4, evs := [], res := .ok (), loopStarted := false }
        else if 2 ≤ ctx.readyStateAtResolve then
          let p := runLmListener ctx.vw ctx.vh st4
          { st := p.1, evs := [], res := .ok (), loopStarted := p.2 }
        else
          { st := st4, evs := [], res := .ok (), loopStarted := false }

/-- Shape of a value supplied for a ScannerService option, as far as the
constructor checks distinguish: missing/undefined, an HTMLVideoElement
instance, a function, or some other truthy value. -/
inductive JsVal where
  | undef
  | videoElem
  | func
  | other
deriving Repr, DecidableEq

/-- JS truthiness of an option value (undefined is falsy). -/
def jsTruthyVal : JsVal → Bool
  | .undef => false
  | _ => true

/-- The three required options of the ScannerService constructor. -/
structure RawOptions where
  videoElement : JsVal
  onScanSuccess : JsVal
  onError : JsVal
deriving Repr, DecidableEq

/-- Errors thrown by the ScannerService constructor. Each constructor
stands for the exact message in the source, which names the offending
option: videoElementRequired for the videoElement message,
onScanSuccessRequired for the onScanSuccess message, onErrorRequired for
the onError message, and canvasContextFailed for the 2D-context message. -/
inductive CtorErr where
  | videoElementRequired
  | onScanSuccessRequired
  | onErrorRequired
  | canvasContextFailed
deriving Repr, DecidableEq

/-- Side effects of a successful constructor run, in source order. -/
inductive CtorEffect where
  | createCameraManager
  | setVideoElement
  | createDecoder
  | createCanvas
deriving Repr, DecidableEq

/-- The ScannerService constructor after the defaulted-options assignment:
validate the three required options in order (throwing before any camera,
decoder, or canvas object is created), then create the CameraManager,
bind the video element, create the QrDecoder, create the canvas, and
throw if no 2D context is available. -/
def constructScanner (o : RawOptions) (canvasCtxOk : Bool) :
    List CtorEffect × Except CtorErr Unit :=
  if !jsTruthyVal o.videoElement || o.videoElement != JsVal.videoElem then
    ([], .error .videoElementRequired)
  else if !jsTruthyVal o.onScanSuccess || o.onScanSuccess != JsVal.func then
    ([], .error .onScanSuccessRequired)
  else if !jsTruthyVal o.onError || o.onError != JsVal.func then
    ([], .error .onErrorRequired)
  else if canvasCtxOk then
    ([.createCameraManager, .setVideoElement, .createDecoder, .createCanvas], .ok ())
  else
    ([.createCameraManager, .setVideoElement, .createDecoder, .createCanvas],
     .error .canvasContextFailed)

/-- A playing, bound video surface with nonzero dimensions, used as a
concrete input by witnesses. -/
def vidOk : VideoState :=
  { bound := true, paused := false, ended := false, videoWidth := 640, videoHeight := 480 }

/-- Concrete tick outcomes: one miss, then a successful decode. -/
def outsW : Nat → TickOutcome :=
  fun i => if i = 0 then .decoded none else .decoded (some "HELLO")

/-- A scanner state in the Scanning session state with default options. -/
def stScan : ScannerState :=
  { initScanner with isScanning := true }

/-- Concrete start() environment in which an external stop() arrives while
the acquisition is pending and the acquisition then succeeds with a ready,
well-dimensioned surface. -/
def ctxStopRace : StartCtx :=
  { acq := .ok (), lmDuringAwait := false, stopDuringAwait := true,
    readyStateAtResolve := 2, vw := 640, vh := 480 }

/-- Concrete start() environment in which acquisition succeeds but the
surface reports zero dimensions at readiness. -/
def ctxZeroDims : StartCtx :=
  { acq := .ok (), lmDuringAwait := false, stopDuringAwait := false,
    readyStateAtResolve := 2, vw := 0, vh := 0 }

/-- Concrete start() environment in which acquisition fails with the
classified DeviceNotFound error (an unavailable deviceId). -/
def ctxAcqFail : StartCtx :=
  { acq := .error .deviceNotFound, lmDuringAwait := false, stopDuringAwait := false,
    readyStateAtResolve := 0, vw := 0, vh := 0 }

/-- A settled promise is unchanged by a further settle call. -/
theorem settled_settleAcq (v w : Except AcqFail Unit) (st : AcqState)
    (h : st.settled = some w) : (settleAcq v st).settled = some w := by
  simp [settleAcq, h]

/-- The synchronous prefix of attemptPlay does not settle the promise. -/
theorem settled_attemptPlayStart (st : AcqState) :
    (attemptPlayStart st).settled = st.settled := by
  unfold attemptPlayStart
  split <;> rfl

/-- No event changes an already-settled readiness promise. -/
theorem acqStep_settled_mono (st : AcqState) (e : AcqEvent) (w : Except AcqFail Unit)
    (h : st.settled = some w) : (acqStep st e).settled = some w := by
  cases e <;>
    simp only [acqStep, attemptPlayStart, settleAcq, cleanupAcq] <;>
    split_ifs <;> simp_all

/-- No event sequence changes an already-settled readiness promise. -/
theorem processEvents_settled_mono (es : List AcqEvent) (st : AcqState)
    (w : Except AcqFail Unit) (h : st.settled = some w) :
    (processEvents st es).settled = some w := by
  induction es generalizing st with
  | nil => exact h
  | cons e es ih =>
    simp only [processEvents, List.foldl] at *
    exact ih _ (acqStep_settled_mono st e w h)

/-- Every event preserves well-formedness of the readiness wait. -/
theorem acqWF_step (st : AcqState) (e : AcqEvent) (h : acqWF st) : acqWF (acqStep st e) := by
  obtain ⟨h1, h2, h3⟩ := h
  cases e <;>
    simp only [acqStep, attemptPlayStart, settleAcq, cleanupAcq, acqWF, acqCleaned] at * <;>
    split_ifs <;> simp_all

/-- Well-formedness is preserved by any event sequence. -/
theorem acqWF_processEvents (es : List AcqEvent) (st : AcqState) (h : acqWF st) :
    acqWF (processEvents st es) := by
  induction es generalizing st with
  | nil => exact h
  | cons e es ih =>
    simp only [processEvents, List.foldl] at *
    exact ih _ (acqWF_step st e h)

/-- The initial readiness-wait state is well-formed. -/
theorem acqWF_initAcq : acqWF initAcq := by
  refine ⟨rfl, ?_, ?_⟩
  · intro h
    simp [initAcq] at h
  · intro _
    exact ⟨rfl, rfl, rfl, rfl, rfl⟩

/-- Firing the timeout on an unresolved wait rejects with the timeout
error and deregisters all listeners and timers. -/
theorem acqStep_timeout_unresolved (st : AcqState) (hWF : acqWF st)
    (h : st.resolved = false) :
    (acqStep st .timeoutFire).settled = some (.error .timeout) ∧
    acqCleaned (acqStep st .timeoutFire) := by
  obtain ⟨h1, h2, h3⟩ := hWF
  have ht : st.timerActive = true := (h3 h).1
  have hset : st.settled = none := by
    cases hs : st.settled with
    | none => rfl
    | some v => rw [hs, h] at h1; simp at h1
  constructor
  · simp [acqStep, ht, h, settleAcq, cleanupAcq, hset]
  · simp [acqStep, ht, h, settleAcq, cleanupAcq, hset, acqCleaned]

/-- Claim C2: an acquisition in which no readiness signal settles the wait
before the 2000 ms timeout fires makes startStream fail with the
classified Timeout error, with the loadedmetadata handler, canplay
handler, error handler, polling interval, and timeout timer all
deregistered; and any resolution of the wait (success, failure, or
timeout) leaves zero registered listeners or timers. -/
theorem startStream_timeout_cleanup (es es2 : List AcqEvent)
    (h : (processEvents initAcq es).resolved = false)
    (h2 : (processEvents initAcq es2).settled.isSome = true) :
    (cmStartStream true (.ok 0) (es ++ [.timeoutFire])).res = some (.error .timeout) ∧
    acqCleaned (processEvents initAcq (es ++ [.timeoutFire])) ∧
    acqCleaned (processEvents initAcq es2) := by
  have hWF := acqWF_processEvents es initAcq acqWF_initAcq
  have hstep := acqStep_timeout_unresolved _ hWF h
  have happ : processEvents initAcq (es ++ [.timeoutFire]) =
      acqStep (processEvents initAcq es) .timeoutFire := by
    simp [processEvents, List.foldl_append]
  refine ⟨?_, ?_, ?_⟩
  · simp only [cmStartStream, if_pos]
    rw [happ, hstep.1]
    rfl
  · rw [happ]; exact hstep.2
  · have hWF2 := acqWF_processEvents es2 initAcq acqWF_initAcq
    exact hWF2.2.1 (by rw [hWF2.1, h2])

/-- Claim C2 witness: with no signal before the timeout, the concrete run
times out, classified Timeout, fully deregistered. -/
theorem startStream_timeout_cleanup_witness :
    (cmStartStream true (.ok 0) ([] ++ [.timeoutFire])).res = some (.error .timeout) ∧
    acqCleaned (processEvents initAcq ([] ++ [.timeoutFire])) ∧
    acqCleaned (processEvents initAcq [.timeoutFire]) :=
  startStream_timeout_cleanup [] [.timeoutFire] (by decide) (by decide)

/-- Claim C4: for every ordering and multiplicity of the readiness signal
firings and play resolutions, the acquisition promise settles exactly
once: once settled with a value, any further events leave that settlement
unchanged, and every event sequence in which the timeout timer eventually
fires is settled at its end. -/
theorem acquisition_settles_exactly_once (es more es1 es2 : List AcqEvent)
    (v : Except AcqFail Unit)
    (h : (processEvents initAcq es).settled = some v) :
    (processEvents initAcq (es ++ more)).settled = some v ∧
    (processEvents initAcq (es1 ++ .timeoutFire :: es2)).settled.isSome = true := by
  constructor
  · have happ : processEvents initAcq (es ++ more) =
        processEvents (processEvents initAcq es) more := by
      simp [processEvents, List.foldl_append]
    rw [happ]
    exact processEvents_settled_mono more _ v h
  · have hWF := acqWF_processEvents es1 initAcq acqWF_initAcq
    have happ : processEvents initAcq (es1 ++ .timeoutFire :: es2) =
        processEvents (acqStep (processEvents initAcq es1) .timeoutFire) es2 := by
      simp [processEvents, List.foldl_append, List.foldl]
    rw [happ]
    cases hres : (processEvents initAcq es1).resolved with
    | false =>
      have hstep := acqStep_timeout_unresolved _ hWF hres
      rw [processEvents_settled_mono es2 _ _ hstep.1]
      rfl
    | true =>
      have hsome : (processEvents initAcq es1).settled.isSome = true := by
        rw [← hWF.1, hres]
      obtain ⟨w, hw⟩ := Option.isSome_iff_exists.mp hsome
      rw [processEvents_settled_mono es2 _ w (acqStep_settled_mono _ .timeoutFire w hw)]
      rfl

/-- Claim C4 witness: a poll-triggered play succeeds and settles the
promise with success; a later canplay firing is ignored; and a bare
timeout firing settles the promise. -/
theorem acquisition_settles_exactly_once_witness :
    (processEvents initAcq ([.pollTick 3, .playResolve true] ++ [.canplay])).settled =
      some (.ok ()) ∧
    (processEvents initAcq ([] ++ .timeoutFire :: [])).settled.isSome = true :=
  acquisition_settles_exactly_once [.pollTick 3, .playResolve true] [.canplay] [] []
    (.ok ()) (by decide)

/-- Resizing the canvas does not change the isScanning flag. -/
@[simp] theorem resizeCanvas_isScanning (video : VideoState) (st : ScannerState) :
    (resizeCanvas video st).isScanning = st.isScanning := by
  unfold resizeCanvas
  split <;> rfl

/-- Resizing the canvas does not change the stopOnScan option. -/
@[simp] theorem resizeCanvas_stopOnScan (video : VideoState) (st : ScannerState) :
    (resizeCanvas video st).stopOnScan = st.stopOnScan := by
  unfold resizeCanvas
  split <;> rfl

/-- Resizing the canvas does not change the scanInterval option. -/
@[simp] theorem resizeCanvas_scanInterval (video : VideoState) (st : ScannerState) :
    (resizeCanvas video st).scanInterval = st.scanInterval := by
  unfold resizeCanvas
  split <;> rfl

/-- After stop() the session is never scanning. -/
@[simp] theorem stopScanner_isScanning (st : ScannerState) :
    (stopScanner st).isScanning = false := by
  unfold stopScanner
  split <;> simp_all

/-- A guarded tick with a falsy try-block outcome keeps the session
Scanning, preserves stopOnScan, arms the next tick after scanInterval,
and invokes no success callback. -/
theorem scanLoop_falsy (video : VideoState) (o : TickOutcome) (st : ScannerState)
    (hb : video.bound = true) (hp : video.paused = false) (he : video.ended = false)
    (hs : st.isScanning = true) (hf : tickFalsy o = true) :
    (scanLoop video o st).st.isScanning = true ∧
    (scanLoop video o st).st.stopOnScan = st.stopOnScan ∧
    (scanLoop video o st).sched = some st.scanInterval ∧
    (scanLoop video o st).evs.filter isSuccessEv = [] := by
  cases o with
  | captureThrows => simp [scanLoop, hb, hp, he, hs, isSuccessEv]
  | decoded r =>
    cases r with
    | none => simp [scanLoop, hb, hp, he, hs]
    | some d =>
      have hd : d = "" := by simpa [tickFalsy] using hf
      subst hd
      simp [scanLoop, hb, hp, he, hs]

/-- A guarded tick whose decode is a non-empty string, with stopOnScan
set, invokes onScanSuccess once, stops the session, and arms no timer. -/
theorem scanLoop_success_stop (video : VideoState) (st : ScannerState) (d : String)
    (hb : video.bound = true) (hp : video.paused = false) (he : video.ended = false)
    (hs : st.isScanning = true) (hstop : st.stopOnScan = true) (hd : d ≠ "") :
    (scanLoop video (.decoded (some d)) st).evs = [.scanSuccess d] ∧
    (scanLoop video (.decoded (some d)) st).st.isScanning = false ∧
    (scanLoop video (.decoded (some d)) st).sched = none := by
  have hd2 : (d != "") = true := by simpa using hd
  simp [scanLoop, hb, hp, he, hs, hd2, hstop]

/-- A tick that arms no timer ends the run. -/
theorem runLoop_stop_step (video : VideoState) (fuel : Nat) (outs : Nat → TickOutcome)
    (st : ScannerState) (h : (scanLoop video (outs 0) st).sched = none) :
    runLoop video (fuel + 1) outs st =
      ((scanLoop video (outs 0) st).st, (scanLoop video (outs 0) st).evs) := by
  simp only [runLoop]
  rw [h]

/-- A tick that arms its timer while the session is still scanning
continues the run with the shifted outcome sequence. -/
theorem runLoop_cont_step (video : VideoState) (fuel : Nat) (outs : Nat → TickOutcome)
    (st : ScannerState) (d : Nat)
    (h : (scanLoop video (outs 0) st).sched = some d)
    (h2 : (scanLoop video (outs 0) st).st.isScanning = true) :
    runLoop video (fuel + 1) outs st =
      ((runLoop video fuel (fun i => outs (i + 1))
          { (scanLoop video (outs 0) st).st with animationFrameId := some 0 }).1,
       (scanLoop video (outs 0) st).evs ++
       (runLoop video fuel (fun i => outs (i + 1))
          { (scanLoop video (outs 0) st).st with animationFrameId := some 0 }).2) := by
  simp only [runLoop]
  rw [h, h2]
  simp

/-- Claim C1: in a run in which the session is Scanning over a live bound
surface and the decoder yields a non-empty string on tick K (after K
falsy ticks), with stop-on-scan set (its default), exactly one success
callback fires, carrying that string; the session transitions to Stopped
(isScanning becomes false); and the successful tick arms no further
tick. -/
theorem scanLoop_stopOnScan_exactly_once (video : VideoState) (outs : Nat → TickOutcome)
    (st st2 : ScannerState) (s : String) (K fuel : Nat)
    (hb : video.bound = true) (hp : video.paused = false) (he : video.ended = false)
    (hs : st.isScanning = true) (hstop : st.stopOnScan = true)
    (hbef : ∀ i, i < K → tickFalsy (outs i) = true)
    (hK : outs K = .decoded (some s)) (hne : s ≠ "") (hfuel : K < fuel)
    (h2s : st2.isScanning = true) (h2stop : st2.stopOnScan = true) :
    (runLoop video fuel outs st).2.filter isSuccessEv = [.scanSuccess s] ∧
    (runLoop video fuel outs st).1.isScanning = false ∧
    (scanLoop video (outs K) st2).sched = none := by
  have main : ∀ K2 (outs2 : Nat → TickOutcome) (stx : ScannerState) (fuel2 : Nat),
      stx.isScanning = true → stx.stopOnScan = true →
      (∀ i, i < K2 → tickFalsy (outs2 i) = true) →
      outs2 K2 = .decoded (some s) → K2 < fuel2 →
      (runLoop video fuel2 outs2 stx).2.filter isSuccessEv = [.scanSuccess s] ∧
      (runLoop video fuel2 outs2 stx).1.isScanning = false := by
    intro K2
    induction K2 with
    | zero =>
      intro outs2 stx fuel2 hsx hstopx _ hKx hfx
      obtain ⟨f, rfl⟩ : ∃ f, fuel2 = f + 1 := ⟨fuel2 - 1, by omega⟩
      have hsucc := scanLoop_success_stop video stx s hb hp he hsx hstopx hne
      rw [← hKx] at hsucc
      rw [runLoop_stop_step video f outs2 stx hsucc.2.2]
      exact ⟨by rw [hsucc.1]; simp [isSuccessEv], hsucc.2.1⟩
    | succ K2 ih =>
      intro outs2 stx fuel2 hsx hstopx hbefx hKx hfx
      obtain ⟨f, rfl⟩ : ∃ f, fuel2 = f + 1 := ⟨fuel2 - 1, by omega⟩
      have hf0 : tickFalsy (outs2 0) = true := hbefx 0 (Nat.succ_pos K2)
      have hstep := scanLoop_falsy video (outs2 0) stx hb hp he hsx hf0
      rw [runLoop_cont_step video f outs2 stx stx.scanInterval hstep.2.2.1 hstep.1]
      have ihres := ih (fun i => outs2 (i + 1))
          { (scanLoop video (outs2 0) stx).st with animationFrameId := some 0 } f
          hstep.1 (hstep.2.1.trans hstopx)
          (fun i hi => hbefx (i + 1) (by omega)) hKx (by omega)
      constructor
      · rw [List.filter_append, hstep.2.2.2, ihres.1]
        rfl
      · exact ihres.2
  have hmain := main K outs st fuel hs hstop hbef hK hfuel
  refine ⟨hmain.1, hmain.2, ?_⟩
  rw [hK]
  exact (scanLoop_success_stop video st2 s hb hp he h2s h2stop hne).2.2

/-- Claim C1 witness: a concrete run with one miss and then a decode of
HELLO under default options fires exactly one success callback, stops the
session, and the successful tick arms nothing. -/
theorem scanLoop_stopOnScan_exactly_once_witness :
    (runLoop vidOk 3 outsW stScan).2.filter isSuccessEv = [.scanSuccess "HELLO"] ∧
    (runLoop vidOk 3 outsW stScan).1.isScanning = false ∧
    (scanLoop vidOk (outsW 1) stScan).sched = none :=
  scanLoop_stopOnScan_exactly_once vidOk outsW stScan stScan "HELLO" 1 3
    rfl rfl rfl rfl rfl (by decide) (by decide) (by decide) (by decide) rfl rfl

/-- Claim C5: a tick on which the frame capture or decode raises is caught
and logged, invokes no error callback, leaves the session Scanning, and
still arms the next tick after the configured interval. -/
theorem tick_exception_contained (video : VideoState) (st : ScannerState)
    (hb : video.bound = true) (hp : video.paused = false) (he : video.ended = false)
    (hs : st.isScanning = true) :
    (scanLoop video .captureThrows st).evs = [.logged] ∧
    (scanLoop video .captureThrows st).evs.filter isErrorEv = [] ∧
    (scanLoop video .captureThrows st).st.isScanning = true ∧
    (scanLoop video .captureThrows st).sched = some st.scanInterval := by
  simp [scanLoop, hb, hp, he, hs, isErrorEv]

/-- Claim C5 witness: a throwing tick on a concrete Scanning state logs,
calls no error callback, stays Scanning, and arms a 200 ms timer. -/
theorem tick_exception_contained_witness :
    (scanLoop vidOk .captureThrows stScan).evs = [.logged] ∧
    (scanLoop vidOk .captureThrows stScan).evs.filter isErrorEv = [] ∧
    (scanLoop vidOk .captureThrows stScan).st.isScanning = true ∧
    (scanLoop vidOk .captureThrows stScan).sched = some 200 :=
  tick_exception_contained vidOk stScan rfl rfl rfl rfl

/-- Delivering a loadedmetadata event does not change the isScanning
flag. -/
theorem dispatchLm_isScanning (vw vh : Nat) (st : ScannerState) :
    (dispatchLm vw vh st).1.isScanning = st.isScanning := by
  unfold dispatchLm runLmListener
  split_ifs <;> rfl

/-- While the session is not scanning, a delivered loadedmetadata event
starts no loop. -/
theorem dispatchLm_not_scanning (vw vh : Nat) (st : ScannerState)
    (h : st.isScanning = false) : (dispatchLm vw vh st).2 = false := by
  unfold dispatchLm runLmListener
  split_ifs <;> simp_all

/-- While the session is not scanning, a delivered loadedmetadata event
does not mark the metadata as loaded. -/
theorem dispatchLm_not_scanning_metadataLoaded (vw vh : Nat) (st : ScannerState)
    (h : st.isScanning = false) :
    (dispatchLm vw vh st).1.metadataLoaded = st.metadataLoaded := by
  unfold dispatchLm runLmListener
  split_ifs <;> simp_all

/-- Once the metadataLoaded closure variable is set, a delivered
loadedmetadata event starts no loop. -/
theorem dispatchLm_metadataLoaded (vw vh : Nat) (st : ScannerState)
    (h : st.metadataLoaded = true) : (dispatchLm vw vh st).2 = false := by
  unfold dispatchLm runLmListener
  split_ifs <;> simp_all

/-- stop() does not change the metadataLoaded closure variable. -/
theorem stopScanner_metadataLoaded (st : ScannerState) :
    (stopScanner st).metadataLoaded = st.metadataLoaded := by
  unfold stopScanner
  split <;> rfl

/-- Whatever interleaves during the await, a start() that began with the
session not scanning is still not scanning when the await resolves, and
the metadataLoaded closure variable is still clear. -/
theorem startAwaitPhase_not_scanning (ctx : StartCtx) (st1 : ScannerState)
    (h : st1.isScanning = false) :
    (startAwaitPhase ctx st1).isScanning = false ∧
    (startAwaitPhase ctx st1).metadataLoaded = st1.metadataLoaded := by
  unfold startAwaitPhase
  split_ifs with h1 h2 h3
  · constructor
    · simp [stopScanner_isScanning]
    · rw [stopScanner_metadataLoaded]
      exact dispatchLm_not_scanning_metadataLoaded ctx.vw ctx.vh st1 h
  · constructor
    · rw [dispatchLm_isScanning]; exact h
    · exact dispatchLm_not_scanning_metadataLoaded ctx.vw ctx.vh st1 h
  · constructor
    · simp [stopScanner_isScanning]
    · exact stopScanner_metadataLoaded st1
  · exact ⟨h, rfl⟩

/-- Claim C3: evaluation of the code at the failing input. With stop()
called while the acquisition is pending (the session is not yet marked
scanning, so stop() returns early as a no-op), the eventual successful
acquisition still marks the session scanning and starts the scan loop,
and the first tick runs and arms the next one. The claim says no tick
ever executes and the session does not enter Scanning; the code does the
opposite. -/
theorem stop_during_acquisition_loop_still_starts :
    (serviceStart ctxStopRace initScanner).loopStarted = true ∧
    (serviceStart ctxStopRace initScanner).st.isScanning = true ∧
    (scanLoop vidOk (.decoded none) (serviceStart ctxStopRace initScanner).st).sched =
      some 200 := by
  decide

/-- Claim C7: a start() whose acquisition fails with a classified error
invokes the error callback exactly once with that error, rejects the
start() promise with the same error, leaves the session Stopped
(isScanning false), starts no loop, and a loadedmetadata event delivered
afterwards still starts no loop. -/
theorem start_failure_reports_and_stays_stopped (ctx : StartCtx) (st0 : ScannerState)
    (e : CamErr) (vw vh : Nat)
    (h0 : st0.isScanning = false) (ha : ctx.acq = .error e) :
    (serviceStart ctx st0).evs = [.errorCb e] ∧
    (serviceStart ctx st0).res = .error e ∧
    (serviceStart ctx st0).st.isScanning = false ∧
    (serviceStart ctx st0).loopStarted = false ∧
    (dispatchLm vw vh (serviceStart ctx st0).st).2 = false := by
  obtain ⟨acq, lmd, sda, rs, cvw, cvh⟩ := ctx
  obtain ⟨sc, ml, ll, el, cw, ch, af, so, si⟩ := st0
  replace h0 : sc = false := h0
  replace ha : acq = Except.error e := ha
  subst h0
  subst ha
  cases lmd <;> cases sda <;>
    simp [serviceStart, startAwaitPhase, dispatchLm, runLmListener, stopScanner]

/-- Claim C7 witness: acquisition failing with DeviceNotFound on a fresh
session. -/
theorem start_failure_reports_and_stays_stopped_witness :
    (serviceStart ctxAcqFail initScanner).evs = [.errorCb .deviceNotFound] ∧
    (serviceStart ctxAcqFail initScanner).res = .error .deviceNotFound ∧
    (serviceStart ctxAcqFail initScanner).st.isScanning = false ∧
    (serviceStart ctxAcqFail initScanner).loopStarted = false ∧
    (dispatchLm 640 480 (serviceStart ctxAcqFail initScanner).st).2 = false :=
  start_failure_reports_and_stays_stopped ctxAcqFail initScanner .deviceNotFound 640 480
    rfl rfl

/-- Claim C8 counterexample: with acquisition succeeding and the surface
reporting 0 x 0 dimensions at readiness, the loop does not start and no
error callback fires, but isScanning remains true: the session does not
stay in a non-Scanning condition as claimed. -/
theorem zero_dims_session_reports_scanning :
    (serviceStart ctxZeroDims initScanner).st.isScanning = true ∧
    (serviceStart ctxZeroDims initScanner).loopStarted = false ∧
    (serviceStart ctxZeroDims initScanner).evs = [] := by
  decide

/-- Claim C8 amended: when acquisition succeeds but the surface reports
zero dimensions at readiness, the scan loop is never started (also not by
a later loadedmetadata delivery), the error callback is not invoked, and
the session is left in a non-error acquired-but-idle condition in which
the isScanning flag nevertheless remains true. -/
theorem zero_dims_no_loop_isScanning_stays_true (ctx : StartCtx) (st0 : ScannerState)
    (h0 : st0.isScanning = false) (ha : ctx.acq = .ok ())
    (hrs : 2 ≤ ctx.readyStateAtResolve) (hdim : ctx.vw = 0 ∨ ctx.vh = 0) :
    (serviceStart ctx st0).loopStarted = false ∧
    (serviceStart ctx st0).evs = [] ∧
    (serviceStart ctx st0).st.isScanning = true ∧
    (dispatchLm ctx.vw ctx.vh (serviceStart ctx st0).st).2 = false := by
  have hv : ¬ (0 < ctx.vw ∧ 0 < ctx.vh) := by
    rcases hdim with h | h <;> omega
  obtain ⟨acq, lmd, sda, rs, cvw, cvh⟩ := ctx
  obtain ⟨sc, ml, ll, el, cw, ch, af, so, si⟩ := st0
  replace h0 : sc = false := h0
  replace ha : acq = Except.ok () := ha
  replace hrs : 2 ≤ rs := hrs
  replace hv : ¬ (0 < cvw ∧ 0 < cvh) := hv
  subst h0
  subst ha
  cases lmd <;> cases sda <;>
    simp [serviceStart, startAwaitPhase, dispatchLm, runLmListener, stopScanner, hrs, hv]

/-- Claim C8 amended witness: the concrete zero-dimension run. -/
theorem zero_dims_no_loop_isScanning_stays_true_witness :
    (serviceStart ctxZeroDims initScanner).loopStarted = false ∧
    (serviceStart ctxZeroDims initScanner).evs = [] ∧
    (serviceStart ctxZeroDims initScanner).st.isScanning = true ∧
    (dispatchLm ctxZeroDims.vw ctxZeroDims.vh (serviceStart ctxZeroDims initScanner).st).2 =
      false :=
  zero_dims_no_loop_isScanning_stays_true ctxZeroDims initScanner rfl rfl
    (by decide) (Or.inl rfl)

/-- After stopStream no stream is held. -/
theorem cmStop_held (cm : CMState) : (cmStopStreamHandles cm).held = none := by
  unfold cmStopStreamHandles
  cases hh : cm.held <;> simp [hh]

/-- stopStream preserves the invariant that the live handles are exactly
the held one: stopping the held stream kills its tracks. -/
theorem cmInv_stop (cm : CMState) (h : cm.liveTracks = cm.held.toList) :
    (cmStopStreamHandles cm).liveTracks = (cmStopStreamHandles cm).held.toList := by
  unfold cmStopStreamHandles
  cases hh : cm.held with
  | none => simpa [hh] using h
  | some x =>
    rw [hh] at h
    simp [h]

/-- startStream preserves the invariant: the previous stream is released
before the fresh one is stored. -/
theorem cmInv_start (g : Bool) (cm : CMState) (h : cm.liveTracks = cm.held.toList) :
    (cmStartStreamHandles g cm).liveTracks = (cmStartStreamHandles g cm).held.toList := by
  have h1 := cmInv_stop cm h
  rw [cmStop_held] at h1
  unfold cmStartStreamHandles
  cases g with
  | false => simpa [cmStop_held] using h1
  | true => simp [h1]

/-- Claim C6: over every sequence of start() and stop() calls on one
session, the handles with live tracks are exactly the currently held one,
so at most one stream handle is live at any time. -/
theorem at_most_one_live_stream (ops : List SvcOp) :
    (svcRun ops).cm.liveTracks = (svcRun ops).cm.held.toList ∧
    (svcRun ops).cm.liveTracks.length ≤ 1 := by
  have main : ∀ (ops2 : List SvcOp) (st : SessionState),
      st.cm.liveTracks = st.cm.held.toList →
      (ops2.foldl svcStep st).cm.liveTracks = (ops2.foldl svcStep st).cm.held.toList := by
    intro ops2
    induction ops2 with
    | nil => intro st h; exact h
    | cons op ops2 ih =>
      intro st h
      simp only [List.foldl]
      apply ih
      cases op with
      | start g w =>
        simp only [svcStep]
        split
        · exact h
        · exact cmInv_start g st.cm h
      | stop =>
        simp only [svcStep]
        split
        · exact cmInv_stop st.cm h
        · exact h
  have hmain := main ops initSession rfl
  refine ⟨hmain, ?_⟩
  simp only [svcRun]
  rw [hmain]
  cases (List.foldl svcStep initSession ops).cm.held <;> simp

/-- Claim C9: constructing a ScannerService with a missing or
non-HTMLVideoElement videoElement, a missing or non-function
onScanSuccess, or a missing or non-function onError throws the error
naming that option, and performs none of the construction effects (no
CameraManager, no decoder, no canvas is created). -/
theorem construct_validates_options (o1 o2 o3 : RawOptions) (b1 b2 b3 : Bool)
    (h1 : o1.videoElement ≠ .videoElem)
    (h2a : o2.videoElement = .videoElem) (h2b : o2.onScanSuccess ≠ .func)
    (h3a : o3.videoElement = .videoElem) (h3b : o3.onScanSuccess = .func)
    (h3c : o3.onError ≠ .func) :
    constructScanner o1 b1 = ([], .error .videoElementRequired) ∧
    constructScanner o2 b2 = ([], .error .onScanSuccessRequired) ∧
    constructScanner o3 b3 = ([], .error .onErrorRequired) := by
  refine ⟨?_, ?_, ?_⟩
  · have hv : (o1.videoElement != JsVal.videoElem) = true := by simpa using h1
    simp [constructScanner, hv]
  · have hs : (o2.onScanSuccess != JsVal.func) = true := by simpa using h2b
    simp [constructScanner, h2a, hs, jsTruthyVal]
  · have he : (o3.onError != JsVal.func) = true := by simpa using h3c
    simp [constructScanner, h3a, h3b, he, jsTruthyVal]

/-- Claim C9 witness: a missing videoElement, a missing onScanSuccess, and
a non-function onError each throw the matching error with no effects. -/
theorem construct_validates_options_witness :
    constructScanner ⟨.undef, .func, .func⟩ true = ([], .error .videoElementRequired) ∧
    constructScanner ⟨.videoElem, .undef, .func⟩ true = ([], .error .onScanSuccessRequired) ∧
    constructScanner ⟨.videoElem, .func, .other⟩ true = ([], .error .onErrorRequired) :=
  construct_validates_options ⟨.undef, .func, .func⟩ ⟨.videoElem, .undef, .func⟩
    ⟨.videoElem, .func, .other⟩ true true true
    (by decide) rfl (by decide) rfl rfl (by decide)

/-- Claim C10: a startStream call with no bound video element resolves
immediately with the acquired stream: the stream is stored but attached
to no surface, no play is attempted, and no readiness listeners or timers
are ever registered, whatever events the environment would have
offered. -/
theorem startStream_unbound_skips_readiness (h : Nat) (evs : List AcqEvent) :
    cmStartStream false (.ok h) evs =
      { res := some (.ok h), streamStored := true, attached := false,
        playAttempts := 0, listenersRegistered := false, timersStarted := false } := rfl

/-- Trimming the empty string yields the empty string. -/
theorem stringTrim_empty : "".trim = "" := by
  unfold String.trim Substring.trim
  simp only [String.toSubstring]
  rw [Substring.takeWhileAux.eq_def]
  simp only [String.endPos_empty]
  norm_num
  rw [Substring.takeRightWhileAux.eq_def]
  norm_num
  simp [Substring.toString, String.extract]

/-- The decoder never returns the empty string (it returns a found code
only when the trimmed data has positive length), so any tick on which the
decoder returns some string satisfies the non-empty hypothesis of the
stop-on-scan run theorem. -/
theorem decodeFromImageData_ne_empty (v : Bool) (j : JsQROutcome) (s : String)
    (h : decodeFromImageData v j = some s) : s ≠ "" := by
  cases j with
  | found d =>
    cases v with
    | false => exact Option.noConfusion h
    | true =>
      have h2 : (if 0 < d.trim.length then some d else (none : Option String)) = some s := h
      split_ifs at h2 with ht
      have hd : d = s := Option.some.inj h2
      subst hd
      intro hs
      rw [hs, stringTrim_empty] at ht
      simp at ht
  | notFound => cases v <;> exact Option.noConfusion h
  | throwsErr => cases v <;> exact Option.noConfusion h
